import Mathlib

/-!
# Verification of the Solarman battery-control session manager

A shallow embedding of `custom_components/solarman/battery_control.py`
(class `BatteryControlManager`) and of the ad-hoc service handler
`_battery_control` in `custom_components/solarman/services.py`.

Modelling conventions:
* Register writes performed through `coordinator.device.execute(0x10, addr,
  data=[value])` are recorded, in order, in a world log; a device oracle
  `ok : Nat → Bool` decides whether the n-th write overall (indexed by the
  length of the log at the moment of the write) succeeds.  A failed write is
  still recorded (it was issued on the wire) and raises an exception in the
  Python code, which the embedding models by an `Option BCError` result.
* `asyncio` tasks created by the manager are modelled as timers in a live-timer
  list carried by the world; `task.cancel()` removes the timer with the stored
  id from the list.  The auto-stop task handle is discarded by the source
  (`asyncio.create_task(self._auto_stop(...))` is not assigned), which the
  embedding reflects by spawning a `deadline` timer whose id is stored nowhere
  in the session state.
* Python `int(x)` on the float `(power_watts / rated_power) * 1000` truncates
  toward zero; over exact arithmetic this is `Int.tdiv (power_watts * 1000)
  rated_power`.  Arithmetic is modelled exactly (over ℤ/ℚ) rather than in
  binary floating point.
* `coordinator.data.get("device_rated_power_sensor")` yields either a missing
  or empty (falsy) value, modelled `none`, or a non-empty sequence whose first
  element is `v`, modelled `some v`.
* The two virtual entities "Manual Battery Power" and "Manual Control Active"
  are modelled as optional cells in the session state (`none` when not
  registered); `set_virtual_value` never raises.
-/

/-- One attempted register write: Modbus function code, register address and
the written value, as passed to `device.execute(code, addr, data=[value])`. -/
structure RegWrite where
  code : Nat
  addr : Nat
  value : Int
deriving DecidableEq, Repr

/-- The kinds of background tasks created by the code: the watchdog-refresh
loop task (`_watchdog_ping`), the auto-stop task (`_auto_stop`), and the
detached `stop_control` task spawned by the service handler. -/
inductive TimerKind where
  | watchdog
  | deadline
  | serviceStop
deriving DecidableEq, Repr

/-- A live background task: its kind, its allocation id and one parameter
(the refresh period for the watchdog task, the duration in minutes for the
auto-stop tasks). -/
structure Timer where
  kind : TimerKind
  id : Nat
  param : Nat
deriving DecidableEq, Repr

/-- The world outside the session state: the ordered log of all register
writes issued so far, the list of live (not cancelled, not yet expired)
background tasks, and a fresh-id counter for task allocation. -/
structure World where
  log : List RegWrite
  live : List Timer
  nextId : Nat
deriving DecidableEq, Repr

/-- The mutable fields of `BatteryControlManager` together with the values of
the two virtual entity cells it writes (`none` = entity not registered). -/
structure BCState where
  control_active : Bool
  control_end_time : Option Nat
  watchdog_task : Option Nat
  manualPowerEntity : Option Int
  manualActiveEntity : Option Bool
deriving DecidableEq, Repr

/-- Errors the embedded code can raise: a register write that failed (with
the global log index at which it was issued, its address and value), or the
`ZeroDivisionError` raised by `power_watts / rated_power` when the rated
power reading is zero. -/
inductive BCError where
  | writeFailed (idx : Nat) (addr : Nat) (value : Int)
  | zeroDiv
deriving DecidableEq, Repr

/-- `await coordinator.device.execute(0x10, addr, data=[value])`: the write is
appended to the log; the oracle, indexed by the log length at issue time,
decides whether it succeeded. -/
def execWrite (ok : Nat → Bool) (w : World) (code addr : Nat) (value : Int) :
    World × Bool :=
  ({ w with log := w.log ++ [⟨code, addr, value⟩] }, ok w.log.length)

/-- `task.cancel()`: the timer with the given id is no longer live. -/
def cancelTimer (w : World) (i : Nat) : World :=
  { w with live := w.live.filter (fun t => t.id != i) }

/-- `asyncio.create_task(...)`: allocate a fresh id and add a live timer. -/
def spawnTimer (w : World) (k : TimerKind) (p : Nat) : World × Nat :=
  ({ w with live := w.live ++ [⟨k, w.nextId, p⟩], nextId := w.nextId + 1 },
   w.nextId)

/-- `rated_power = rated_power_data[0] if rated_power_data else 20000`
(identical in `battery_control.py` line 29 and `services.py` line 79):
the fallback 20000 applies exactly when the cached reading is falsy
(missing or empty); a present first element is used as-is. -/
def rated_power_of (d : Option Int) : Int :=
  match d with
  | some v => v
  | none => 20000

/-- `power_percentage = int((power_watts / rated_power) * 1000)` followed by
`power_percentage = max(-1200, min(1200, power_percentage))`
(`battery_control.py` lines 30-33).  Python `int` truncates toward zero,
which on the exact quotient is `Int.tdiv`. -/
def power_percentage_of (power_watts rated_power : Int) : Int :=
  max (-1200) (min 1200 (Int.tdiv (power_watts * 1000) rated_power))

/-- The same computation as written a second time in `services.py`
lines 80-81. -/
def service_power_percentage (power_watts rated_power : Int) : Int :=
  max (-1200) (min 1200 (Int.tdiv (power_watts * 1000) rated_power))

/-- The formula the specification states for the setpoint:
`clamp(round(powerWatts / ratedPower * 1000), -1200, 1200)`, with a true
round-to-nearest on the exact rational quotient. -/
def claimed_power_percentage (power_watts rated_power : Int) : Int :=
  max (-1200) (min 1200 (round ((power_watts : ℚ) * 1000 / (rated_power : ℚ))))

/-- The write loop `for address, value in registers: await ...execute(0x10,
address, data=[value])`: writes are issued in order; the first failure aborts
the remaining writes and raises. -/
def runWrites (ok : Nat → Bool) (w : World) : List (Nat × Int) → World × Option BCError
  | [] => (w, none)
  | (addr, v) :: rest =>
    let r := execWrite ok w 0x10 addr v
    if r.2 then runWrites ok r.1 rest
    else (r.1, some (.writeFailed w.log.length addr v))

/-- `BatteryControlManager.stop_battery_control` (lines 64-96).  Returns the
new session state and world; it never raises (the whole body is wrapped in
`try/except` that only logs).  Note the source order: the early return when
not active; cancel of the stored watchdog task; the two reset writes — and
only after both succeed, the clearing of `control_active`/`control_end_time`
and the virtual-entity resets.  A failed reset write jumps to the `except`
handler with the state not yet cleared. -/
def stop_battery_control (ok : Nat → Bool) (st : BCState) (w : World) :
    BCState × World :=
  if st.control_active = false then (st, w)
  else
    let w1 := match st.watchdog_task with
      | some i => cancelTimer w i
      | none => w
    let r1 := execWrite ok w1 0x10 0x044C 0
    if r1.2 = false then (st, r1.1)
    else
      let r2 := execWrite ok r1.1 0x10 0x0455 0
      if r2.2 = false then (st, r2.1)
      else
        ({ st with
            control_active := false
            control_end_time := none
            manualPowerEntity := st.manualPowerEntity.map (fun _ => 0)
            manualActiveEntity := st.manualActiveEntity.map (fun _ => false) },
         r2.1)

/-- `BatteryControlManager.start_battery_control` (lines 21-62).  Mirrors the
source: the re-entrant stop when already active; the rated-power lookup with
its falsy-only fallback; the `ZeroDivisionError` when the rated power is 0
(caught by the outer `except`, which runs `stop_battery_control` and
re-raises); the five setup writes in order; on any write failure the `except`
handler runs `stop_battery_control` and re-raises the original error; on
success `control_active`/`control_end_time` are set, the watchdog task is
created and its handle stored, and the auto-stop task is created with its
handle discarded. -/
def start_battery_control (ok : Nat → Bool) (now : Nat) (power_watts : Int)
    (duration_minutes : Nat) (ratedData : Option Int) (st : BCState)
    (w : World) : BCState × World × Option BCError :=
  let s0 := if st.control_active then stop_battery_control ok st w else (st, w)
  let rated := rated_power_of ratedData
  if rated = 0 then
    let s1 := stop_battery_control ok s0.1 s0.2
    (s1.1, s1.2, some .zeroDiv)
  else
    let pct := power_percentage_of power_watts rated
    let r := runWrites ok s0.2
      [(0x044C, 1), (0x0450, 1), (0x0451, 2), (0x044D, 300), (0x0455, pct)]
    match r.2 with
    | some e =>
      let s1 := stop_battery_control ok s0.1 r.1
      (s1.1, s1.2, some e)
    | none =>
      let sp1 := spawnTimer r.1 .watchdog 240
      let sp2 := spawnTimer sp1.1 .deadline duration_minutes
      ({ s0.1 with
          control_active := true
          control_end_time := some (now + duration_minutes)
          watchdog_task := some sp1.2 },
       sp2.1, none)

/-- The body of one watchdog-loop iteration after the 240 s sleep:
`if self.control_active: await ...execute(0x10, 0x044C, data=[1])`
(`_watchdog_ping` lines 103-105).  A raised exception is caught and only
logged, so the write's success does not affect the result. -/
def watchdog_tick_write (ok : Nat → Bool) (st : BCState) (w : World) : World :=
  if st.control_active then (execWrite ok w 0x10 0x044C 1).1 else w

/-- `BatteryControlManager._watchdog_ping` (lines 98-110) run over a list of
tick times (the value of `datetime.now()` at each evaluation of the `while`
condition).  The loop keeps running while `control_active and now <
control_end_time`; each surviving tick performs `watchdog_tick_write`; a
write failure is logged and the loop simply continues with the next tick. -/
def watchdog_ping (ok : Nat → Bool) (st : BCState) :
    List Nat → World → World
  | [], w => w
  | t :: rest, w =>
    match st.control_end_time with
    | none => w
    | some endT =>
      if st.control_active = true ∧ t < endT then
        watchdog_ping ok st rest (watchdog_tick_write ok st w)
      else w

/-- `BatteryControlManager._auto_stop` body after its sleep (lines 115-116):
`if self.control_active: await self.stop_battery_control()`. -/
def auto_stop (ok : Nat → Bool) (st : BCState) (w : World) : BCState × World :=
  if st.control_active then stop_battery_control ok st w else (st, w)

/-- `_battery_control` in `services.py` (lines 63-105): the same rated-power
lookup and percentage computation, the same five writes in the same order via
function code 0x10, then a detached `stop_control` task is scheduled; the
manager's session state is never touched (the handler does not reference
`BatteryControlManager` at all), so the embedding neither takes nor returns a
`BCState`.  Errors (including the zero-division) are re-raised to the caller
wrapped in a `ServiceValidationError`; the wrapping is glue and not
modelled. -/
def battery_control_service (ok : Nat → Bool) (power_watts : Int)
    (duration_minutes : Nat) (ratedData : Option Int) (w : World) :
    World × Option BCError :=
  let rated := rated_power_of ratedData
  if rated = 0 then (w, some .zeroDiv)
  else
    let pct := service_power_percentage power_watts rated
    let r := runWrites ok w
      [(0x044C, 1), (0x0450, 1), (0x0451, 2), (0x044D, 300), (0x0455, pct)]
    match r.2 with
    | some e => (r.1, some e)
    | none =>
      let sp := spawnTimer r.1 .serviceStop duration_minutes
      (sp.1, none)

/-- A fresh idle session with both virtual entities registered at their
construction defaults (`0` and `False`, per `virtual_entity.py`). -/
def idleInit : BCState :=
  ⟨false, none, none, some 0, some false⟩

/-- The world before any write or task. -/
def worldInit : World :=
  ⟨[], [], 0⟩

/-- The all-success device oracle. -/
def allOk : Nat → Bool := fun _ => true

/-- The all-failure device oracle. -/
def allFail : Nat → Bool := fun _ => false

/-- C7: a successful `Start(5000, 10)` with rated power 20000 issues exactly
the register writes `[(0x044C,1),(0x0450,1),(0x0451,2),(0x044D,300),
(0x0455,250)]` in that order, returns no error, and leaves the session
active with its deadline 10 minutes from now. -/
theorem c7_successful_start_trace (now : Nat) :
    let r : BCState × World × Option BCError :=
      start_battery_control allOk now 5000 10 (some 20000) idleInit worldInit
    r.2.1.log =
      [⟨0x10, 0x044C, 1⟩, ⟨0x10, 0x0450, 1⟩, ⟨0x10, 0x0451, 2⟩,
       ⟨0x10, 0x044D, 300⟩, ⟨0x10, 0x0455, 250⟩] ∧
    r.1.control_active = true ∧
    r.1.control_end_time = some (now + 10) ∧
    r.2.2 = none := by
  exact ⟨rfl, rfl, rfl, rfl⟩

/-- C1: when the final setup write to `0x0455` fails during a `Start` that
began in `Idle`, the remaining writes are aborted, the session ends idle and
the original error is propagated — but, contrary to the claim, no reset
writes `(0x044C,0)`, `(0x0455,0)` are issued: the `except` handler's
`stop_battery_control()` returns immediately because `control_active` is
still `False`, so the log holds exactly the five attempted setup writes and
no write of a zero value at all. -/
theorem c1_start_failure_issues_no_reset_writes :
    let r : BCState × World × Option BCError :=
      start_battery_control (fun n => n != 4) 0 5000 10 (some 20000)
        idleInit worldInit
    r.2.1.log =
      [⟨0x10, 0x044C, 1⟩, ⟨0x10, 0x0450, 1⟩, ⟨0x10, 0x0451, 2⟩,
       ⟨0x10, 0x044D, 300⟩, ⟨0x10, 0x0455, 250⟩] ∧
    r.2.1.log.filter (fun rw => rw.value == 0) = [] ∧
    r.1.control_active = false ∧
    r.2.2 = some (.writeFailed 4 0x0455 250) := by
  decide

/-- C2: when the first reset write fails during `Stop` on an active session,
`Stop` does return without raising (its result type carries no error), but —
contrary to the claim — the session state is NOT cleared: `control_active`
stays `true`, the deadline stays set and both indicator cells keep their old
values, because the state-clearing statements sit after the register writes
inside the `try` block. -/
theorem c2_stop_failure_leaves_state_set :
    let st : BCState := ⟨true, some 10, some 0, some 250, some true⟩
    let w : World := ⟨[], [⟨.watchdog, 0, 240⟩, ⟨.deadline, 1, 10⟩], 2⟩
    let r := stop_battery_control allFail st w
    r.1.control_active = true ∧
    r.1.control_end_time = some 10 ∧
    r.1.manualPowerEntity = some 250 ∧
    r.1.manualActiveEntity = some true ∧
    r.2.log = [⟨0x10, 0x044C, 0⟩] := by
  decide

/-- C5: a cached rated-power reading that is present but zero is NOT replaced
by the 20000 fallback — the fallback guards only a missing/empty reading — so
`power_watts / rated_power` divides by zero: `Start` raises the
zero-division error before issuing any write, and a present negative reading
is likewise used as-is. -/
theorem c5_zero_rated_power_divides_by_zero :
    rated_power_of (some 0) = 0 ∧
    rated_power_of (some (-100)) = -100 ∧
    (start_battery_control allOk 0 5000 10 (some 0) idleInit worldInit).2.2 =
      some .zeroDiv ∧
    (start_battery_control allOk 0 5000 10 (some 0) idleInit worldInit).2.1.log
      = [] := by
  decide

/-- C4 counterexample: at `powerWatts = 39`, `ratedPower = 20000` the exact
quotient is 1.95; the code's `int()` truncation yields 1 while the claim's
`round` yields 2, so the computed setpoint does not equal
`clamp(round(powerWatts / ratedPower * 1000), -1200, 1200)`. -/
theorem c4_truncation_differs_from_round :
    power_percentage_of 39 20000 = 1 ∧
    claimed_power_percentage 39 20000 = 2 ∧
    power_percentage_of 39 20000 ≠ claimed_power_percentage 39 20000 := by
  have h1 : power_percentage_of 39 20000 = 1 := by decide
  have h2 : claimed_power_percentage 39 20000 = 2 := by
    unfold claimed_power_percentage
    norm_num [round_eq]
  exact ⟨h1, h2, by rw [h1, h2]; decide⟩

/-- C4 (amended): for every `powerWatts` and positive `ratedPower` the
setpoint is `clamp(trunc(powerWatts * 1000 / ratedPower), -1200, 1200)` with
truncation toward zero (Python `int()`), not round-to-nearest; in particular
`powerWatts = ratedPower * 2` yields 1200, `powerWatts = -ratedPower * 2`
yields -1200, and the sign of the input is weakly preserved. -/
theorem c4_clamped_truncation (p r : Int) (hr : 0 < r) :
    power_percentage_of p r
      = max (-1200) (min 1200 (Int.tdiv (p * 1000) r)) ∧
    power_percentage_of (r * 2) r = 1200 ∧
    power_percentage_of (-(r * 2)) r = -1200 ∧
    (0 ≤ p → 0 ≤ power_percentage_of p r) ∧
    (p ≤ 0 → power_percentage_of p r ≤ 0) := by
  have hr0 : r ≠ 0 := ne_of_gt hr
  have h2 : (r * 2) * 1000 = 2000 * r := by ring
  have htd : Int.tdiv ((r * 2) * 1000) r = 2000 := by
    rw [h2]; exact Int.mul_tdiv_cancel 2000 hr0
  refine ⟨rfl, ?_, ?_, ?_, ?_⟩
  · unfold power_percentage_of
    rw [htd]; decide
  · unfold power_percentage_of
    have : (-(r * 2)) * 1000 = -((r * 2) * 1000) := by ring
    rw [this, Int.neg_tdiv, htd]; decide
  · intro hp
    unfold power_percentage_of
    have : 0 ≤ Int.tdiv (p * 1000) r :=
      Int.tdiv_nonneg (by positivity) (le_of_lt hr)
    omega
  · intro hp
    unfold power_percentage_of
    have hnn : 0 ≤ Int.tdiv ((-p) * 1000) r :=
      Int.tdiv_nonneg (by nlinarith) (le_of_lt hr)
    have : Int.tdiv (p * 1000) r = -(Int.tdiv ((-p) * 1000) r) := by
      rw [show (-p) * 1000 = -(p * 1000) by ring, Int.neg_tdiv]
      omega
    omega

/-- C4 witness: the amended theorem applied at `ratedPower = 20000`,
`powerWatts = 40000 = 2 * ratedPower`, which clamps to 1200. -/
theorem c4_clamped_truncation_witness :
    0 < (20000 : Int) ∧ power_percentage_of (20000 * 2) 20000 = 1200 :=
  ⟨by decide, (c4_clamped_truncation 0 20000 (by decide)).2.1⟩

/-- C3 counterexample: after a successful `Start` from `Idle` followed by a
successful explicit `Stop`, the session is idle yet the auto-stop (deadline)
timer spawned by the `Start` is still live — `stop_battery_control` cancels
only the stored watchdog task; the auto-stop task's handle was discarded at
creation and is never cancelled, contradicting both "active == false implies
no live timers" and "both timers are cancelled on every transition to
Idle". -/
theorem c3_deadline_timer_survives_stop :
    let r1 := start_battery_control allOk 0 5000 10 (some 20000) idleInit worldInit
    let r2 := stop_battery_control allOk r1.1 r1.2.1
    r2.1.control_active = false ∧ r2.2.live = [⟨.deadline, 1, 10⟩] := by
  decide

/-- C3 (amended): `Stop` on an active session cancels exactly the stored
watchdog-refresh task — every other live timer, in particular any auto-stop
(deadline) timer, remains live, on every branch of `Stop` (whether the reset
writes succeed or fail); and a successful `Start` from `Idle` spawns exactly
one watchdog timer and one deadline timer.  The deadline timer is never
cancelled on a transition to `Idle`; it is left to expire (its callback
re-checks `control_active`). -/
theorem c3_stop_cancels_only_watchdog (ok : Nat → Bool) (st : BCState)
    (w : World) (i : Nat)
    (h1 : st.control_active = true) (h2 : st.watchdog_task = some i) :
    ((stop_battery_control ok st w).2).live
      = w.live.filter (fun t => t.id != i) ∧
    (start_battery_control allOk 0 5000 10 (some 20000) idleInit
        worldInit).2.1.live
      = [⟨.watchdog, 0, 240⟩, ⟨.deadline, 1, 10⟩] := by
  refine ⟨?_, by decide⟩
  unfold stop_battery_control execWrite cancelTimer
  rw [h1, h2]
  simp only [Bool.true_eq_false, if_false]
  split
  · rfl
  · split
    · rfl
    · rfl

/-- C3 witness: the amended theorem applied to an active session holding
watchdog task id 0 with a live watchdog timer and a live deadline timer. -/
theorem c3_stop_cancels_only_watchdog_witness :
    ((stop_battery_control allOk ⟨true, some 10, some 0, none, none⟩
        ⟨[], [⟨.watchdog, 0, 240⟩, ⟨.deadline, 1, 10⟩], 2⟩).2).live
      = ([⟨.watchdog, 0, 240⟩, ⟨.deadline, 1, 10⟩] : List Timer).filter
          (fun t => t.id != 0) :=
  (c3_stop_cancels_only_watchdog allOk ⟨true, some 10, some 0, none, none⟩
    ⟨[], [⟨.watchdog, 0, 240⟩, ⟨.deadline, 1, 10⟩], 2⟩ 0 rfl rfl).1

/-- C6 counterexample: `Start(5000, 10)` from `Idle` followed by a re-entrant
`Start(3000, 20)` (all device writes succeeding) leaves the first session's
auto-stop (deadline) timer — id 1, duration 10 — still live alongside the new
session's timers, contradicting "no timer from the prior session still
live". -/
theorem c6_prior_deadline_timer_still_live :
    let r1 := start_battery_control allOk 0 5000 10 (some 20000) idleInit worldInit
    let r2 := start_battery_control allOk 0 3000 20 (some 20000) r1.1 r1.2.1
    r2.1.control_active = true ∧
    (⟨.deadline, 1, 10⟩ : Timer) ∈ r2.2.1.live := by
  decide

/-- C6 (amended): with all device writes succeeding, a `Start` issued while
the session is `Active` is equal, as a state-and-world transformer, to `Stop`
followed by `Start` with the new parameters; the resulting session fields
(deadline, stored watchdog handle) and the newly spawned timers reflect only
the new parameters and the prior watchdog timer is cancelled — but the prior
session's deadline timer (id 1, old duration) remains live, because `Stop`
never cancels the auto-stop task. -/
theorem c6_reentrant_start_eq_stop_then_start (p p' : Int) (d d' now : Nat) :
    let r1 : BCState × World × Option BCError :=
      start_battery_control allOk now p d (some 20000) idleInit worldInit
    let lhs := start_battery_control allOk now p' d' (some 20000) r1.1 r1.2.1
    let mid := stop_battery_control allOk r1.1 r1.2.1
    let rhs := start_battery_control allOk now p' d' (some 20000) mid.1 mid.2
    lhs = rhs ∧
    lhs.1.control_end_time = some (now + d') ∧
    lhs.1.watchdog_task = some 2 ∧
    lhs.2.1.live = [⟨.deadline, 1, d⟩, ⟨.watchdog, 2, 240⟩, ⟨.deadline, 3, d'⟩] := by
  exact ⟨rfl, rfl, rfl, rfl⟩

/-- C8: while the session is active and before its deadline, one watchdog
tick appends exactly one `(0x044C, 1)` write — and nothing else — to the log,
and the loop then proceeds to the remaining ticks in the same way whatever
the write's outcome `ok` was: a failed refresh is retried on the next tick,
the session state is untouched (the loop never writes it) and no error is
raised (the loop's result type carries none, matching the `except` clause
that only logs). -/
theorem c8_watchdog_tick_single_refresh (ok : Nat → Bool) (st : BCState)
    (endT t : Nat) (rest : List Nat) (w : World)
    (h1 : st.control_active = true) (h2 : st.control_end_time = some endT)
    (h3 : t < endT) :
    watchdog_ping ok st (t :: rest) w
      = watchdog_ping ok st rest
          { w with log := w.log ++ [⟨0x10, 0x044C, 1⟩] } := by
  simp [watchdog_ping, watchdog_tick_write, execWrite, h1, h2, h3]

/-- C8 witness: one tick of an active session with deadline 100 at time 5,
under an all-failure oracle, still appends exactly the one refresh write and
continues. -/
theorem c8_watchdog_tick_single_refresh_witness :
    watchdog_ping allFail ⟨true, some 100, some 0, none, none⟩ [5] worldInit
      = watchdog_ping allFail ⟨true, some 100, some 0, none, none⟩ []
          { worldInit with log := worldInit.log ++ [⟨0x10, 0x044C, 1⟩] } :=
  c8_watchdog_tick_single_refresh allFail ⟨true, some 100, some 0, none, none⟩
    100 5 [] worldInit rfl rfl (by decide)

/-- C9 counterexample: when the device rejects the reset writes, the first
`Stop` on an active session fails to clear `control_active`, so an
immediately following second `Stop` does not observe `Idle` and re-issues the
reset write: the write `(0x044C, 0)` is issued twice across the two calls,
contradicting "two immediately successive Stop calls issue the reset writes
at most once". -/
theorem c9_double_stop_reissues_resets :
    let st : BCState := ⟨true, some 10, some 0, none, none⟩
    let r1 := stop_battery_control allFail st worldInit
    let r2 := stop_battery_control allFail r1.1 r1.2
    r2.2.log = [⟨0x10, 0x044C, 0⟩, ⟨0x10, 0x044C, 0⟩] := by
  decide

/-- C9 (amended): `Stop` on an idle session is a no-op — no writes, no state
change, no error — and, provided the first `Stop`'s reset writes succeed, a
second immediately successive `Stop` changes nothing (the reset writes are
issued at most once); only when the first `Stop`'s resets fail does the
session remain active and the second call re-issue them. -/
theorem c9_stop_idle_noop (ok : Nat → Bool) (st : BCState) (w : World) :
    (st.control_active = false → stop_battery_control ok st w = (st, w)) ∧
    (st.control_active = true →
      (let r1 := stop_battery_control allOk st w
       stop_battery_control allOk r1.1 r1.2 = r1)) := by
  constructor
  · intro h
    unfold stop_battery_control
    rw [h]
    simp
  · intro h
    unfold stop_battery_control
    rw [h]
    simp [execWrite, allOk]

/-- C9 witness: the no-op clause applied to the fresh idle session, and the
at-most-once clause applied to an active session with succeeding resets. -/
theorem c9_stop_idle_noop_witness :
    stop_battery_control allOk idleInit worldInit = (idleInit, worldInit) :=
  (c9_stop_idle_noop allOk idleInit worldInit).1 rfl

/-- C10: for every power value, rated-power reading, oracle and prior write
log, the service handler `_battery_control` computes the same clamped
percentage as `start_battery_control` (the two textually duplicated
computations are one and the same function), issues exactly the same
register writes in the same order with the same function code 0x10 —
including identical behaviour on the zero-rated-power error and on a write
failure — and raises the same error; it never touches the manager's session
state, which its embedding neither takes nor returns. -/
theorem c10_service_matches_manager_start (ok : Nat → Bool) (p : Int)
    (d now : Nat) (rd : Option Int) (w : World) :
    service_power_percentage = power_percentage_of ∧
    (battery_control_service ok p d rd w).1.log
      = (start_battery_control ok now p d rd idleInit w).2.1.log ∧
    (battery_control_service ok p d rd w).2
      = (start_battery_control ok now p d rd idleInit w).2.2 := by
  refine ⟨rfl, ?_, ?_⟩ <;>
    (unfold battery_control_service start_battery_control
     simp only [service_power_percentage, power_percentage_of, idleInit]
     by_cases h : rated_power_of rd = 0
     · simp [h, stop_battery_control]
     · simp only [h, if_false]
       cases hr : (runWrites ok w
         [(0x044C, 1), (0x0450, 1), (0x0451, 2), (0x044D, 300),
          (0x0455, max (-1200)
            (min 1200 (Int.tdiv (p * 1000) (rated_power_of rd))))]).2
       <;> simp [hr, stop_battery_control, spawnTimer])
